import Mathlib

/-!
Verification of `util/conditions/v1beta2/mirror.go` (cluster-api).

The Go source is embedded shallowly:
  * `metav1.Condition` becomes the structure `Condition`; `metav1.ConditionStatus`
    is a string type in Go, so `status` is a `String`; `metav1.Time` is modelled
    as `Int` with `0` as the zero (unset) value; `ObservedGeneration` (int64)
    likewise as `Int` with zero value `0`.
  * `MirrorOption` is a Go interface with the single capability
    `ApplyToMirror(*MirrorOptions)`; we model it as a state transformer
    `MirrorOptions → MirrorOptions`.
  * `strings.TrimSpace` becomes `String.trim` (both strip leading and trailing
    whitespace).
  * Collaborators defined elsewhere in the repository (`getConditionOwnerInfo`,
    `UnstructuredGet`, `Set`, the standard option directives) are modelled from
    the spec, each marked as such in its doc comment.
-/

namespace MirrorV1Beta2

/-- The `metav1.ConditionStatus` constants (string values, as in k8s apimachinery). -/
def ConditionTrue : String := "True"

/-- `metav1.ConditionFalse`. -/
def ConditionFalse : String := "False"

/-- `metav1.ConditionUnknown`. -/
def ConditionUnknown : String := "Unknown"

/-- `metav1.Condition`: type, status, reason, message, last transition time,
observed generation. Time and generation are modelled as `Int` with zero value 0. -/
structure Condition where
  type : String
  status : String
  reason : String
  message : String
  lastTransitionTime : Int
  observedGeneration : Int
  deriving DecidableEq, Repr

/-- `NotYetReportedReason` constant from mirror.go: set on missing conditions
generated during mirror, aggregate or summary operations. -/
def NotYetReportedReason : String := "NotYetReported"

/-- `MirrorOptions` from mirror.go: target condition type and the fallback triple.
Go zero values of the unlisted fields in the struct literal are empty strings. -/
structure MirrorOptions where
  targetConditionType : String
  fallbackStatus : String
  fallbackReason : String
  fallbackMessage : String
  deriving DecidableEq, Repr

/-- `MirrorOption` interface: a single capability `ApplyToMirror(*MirrorOptions)`,
modelled as a state transformer on `MirrorOptions`. -/
def MirrorOption : Type := MirrorOptions → MirrorOptions

/-- `(*MirrorOptions).ApplyOptions`: applies each option in sequence order to the
options value, returning the result (the Go method mutates the receiver in place
and returns it). -/
def MirrorOptions.ApplyOptions (o : MirrorOptions) (opts : List MirrorOption) : MirrorOptions :=
  opts.foldl (fun acc opt => opt acc) o

/-- Identity fields of a source object, from which the owner label is derived.
Only kind and name take part in the label used in messages. -/
structure SourceObj where
  kind : String
  name : String
  deriving DecidableEq, Repr

/-- Modelled from the spec: `getConditionOwnerInfo` (defined outside mirror.go)
derives a short identity label "kind/name" for the source object, used only in
generated message text. -/
def getConditionOwnerInfo (o : SourceObj) : String :=
  o.kind ++ "/" ++ o.name

/-- `newMirrorCondition` from mirror.go: builds the mirror of `condition` from
`sourceObj`; when the condition is absent, produces the configured fallback if
`fallbackStatus` is non-empty, else the `NotYetReported` placeholder. Fields the
Go code leaves unset keep their zero values (0 for time and generation). -/
def newMirrorCondition (sourceObj : SourceObj) (condition : Option Condition)
    (sourceConditionType : String) (opts : List MirrorOption) : Condition :=
  let mirrorOpt : MirrorOptions :=
    { targetConditionType := sourceConditionType
      fallbackStatus := ""
      fallbackReason := ""
      fallbackMessage := "" }
  let mirrorOpt := mirrorOpt.ApplyOptions opts
  let conditionOwner := getConditionOwnerInfo sourceObj
  match condition with
  | some c =>
      { type := mirrorOpt.targetConditionType
        status := c.status
        lastTransitionTime := c.lastTransitionTime
        reason := c.reason
        message := (c.message ++ " (from " ++ conditionOwner ++ ")").trim
        observedGeneration := 0 }
  | none =>
      if mirrorOpt.fallbackStatus ≠ "" then
        { type := mirrorOpt.targetConditionType
          status := mirrorOpt.fallbackStatus
          reason := mirrorOpt.fallbackReason
          message := mirrorOpt.fallbackMessage
          lastTransitionTime := 0
          observedGeneration := 0 }
      else
        { type := mirrorOpt.targetConditionType
          status := ConditionUnknown
          reason := NotYetReportedReason
          message := "Condition " ++ sourceConditionType ++ " not yet reported from " ++ conditionOwner
          lastTransitionTime := 0
          observedGeneration := 0 }

/-- Modelled from the spec: the standard directive that overrides
`targetConditionType` (defined outside mirror.go). -/
def TargetConditionType (t : String) : MirrorOption :=
  fun o => { o with targetConditionType := t }

/-- Modelled from the spec: the standard directive that sets the fallback triple
(status, reason, message) atomically (defined outside mirror.go). -/
def FallbackCondition (status reason message : String) : MirrorOption :=
  fun o => { o with fallbackStatus := status, fallbackReason := reason, fallbackMessage := message }

/-- `BoolToStatus` from mirror.go: converts a bool to `ConditionTrue` or
`ConditionFalse`. -/
def BoolToStatus (status : Bool) : String :=
  if status then ConditionTrue else ConditionFalse

/-- Modelled from the spec: the external setter `Set` replaces any existing
condition of the same Type on the object, or appends if none exists. The target
object's condition list is the state being written. -/
def Set (conditions : List Condition) (c : Condition) : List Condition :=
  if conditions.any (fun x => x.type = c.type) then
    conditions.map (fun x => if x.type = c.type then c else x)
  else
    conditions ++ [c]

/-- Modelled from the spec: a dynamic (unstructured) source object. The decode
of a condition from its generic key-value tree may fail with a decode error;
we model the object as its identity fields together with the result of
`UnstructuredGet` per condition type. -/
structure UnstructuredObj where
  owner : SourceObj
  decode : String → Except String (Option Condition)

/-- Modelled from the spec: `UnstructuredGet` decodes the condition of the given
type from the dynamic representation, failing with a decode error on shape
mismatch, returning `none` when absent. -/
def UnstructuredGet (sourceObj : UnstructuredObj) (conditionType : String) :
    Except String (Option Condition) :=
  sourceObj.decode conditionType

/-- `SetMirrorConditionFromUnstructured` from mirror.go: decode the source
condition from the dynamic representation; on decode error, return it and do not
write to the target; on success, write the mirror condition into the target
object's conditions via Set and return no error. The target's condition list is
passed and returned explicitly as state, paired with the returned error. -/
def SetMirrorConditionFromUnstructured (sourceObj : UnstructuredObj)
    (targetConditions : List Condition) (sourceConditionType : String)
    (opts : List MirrorOption) : List Condition × Option String :=
  match UnstructuredGet sourceObj sourceConditionType with
  | .error err => (targetConditions, some err)
  | .ok condition =>
      (Set targetConditions
        (newMirrorCondition sourceObj.owner condition sourceConditionType opts), none)

/-! ## Theorems -/

/-- C1: when the source condition is present, the mirror has Type equal to the
effective targetConditionType, Status, Reason and LastTransitionTime copied
verbatim from the source condition, and Message equal to the whitespace-trimmed
concatenation of the source Message, " (from ", the owner label, and ")". -/
theorem newMirrorCondition_present_spec (obj : SourceObj) (c : Condition)
    (t : String) (opts : List MirrorOption) :
    newMirrorCondition obj (some c) t opts =
      { type := (MirrorOptions.ApplyOptions ⟨t, "", "", ""⟩ opts).targetConditionType
        status := c.status
        reason := c.reason
        message := (c.message ++ " (from " ++ getConditionOwnerInfo obj ++ ")").trim
        lastTransitionTime := c.lastTransitionTime
        observedGeneration := 0 } := rfl

/-- C2: when the source condition is absent and the effective fallbackStatus is
non-empty, the mirror carries the fallback triple verbatim, with the effective
target type, and LastTransitionTime left at its zero value. -/
theorem newMirrorCondition_fallback_spec (obj : SourceObj) (t : String)
    (opts : List MirrorOption)
    (h : (MirrorOptions.ApplyOptions ⟨t, "", "", ""⟩ opts).fallbackStatus ≠ "") :
    newMirrorCondition obj none t opts =
      { type := (MirrorOptions.ApplyOptions ⟨t, "", "", ""⟩ opts).targetConditionType
        status := (MirrorOptions.ApplyOptions ⟨t, "", "", ""⟩ opts).fallbackStatus
        reason := (MirrorOptions.ApplyOptions ⟨t, "", "", ""⟩ opts).fallbackReason
        message := (MirrorOptions.ApplyOptions ⟨t, "", "", ""⟩ opts).fallbackMessage
        lastTransitionTime := 0
        observedGeneration := 0 } := by
  unfold newMirrorCondition
  simp only []
  rw [if_pos h]

/-- Witness for C2, at the spec's scenario: absent condition, options
targetConditionType = "InfraReady" and fallback (True, "Provisioned",
"infra is up"). -/
theorem newMirrorCondition_fallback_spec_witness :
    (MirrorOptions.ApplyOptions ⟨"Ready", "", "", ""⟩
        [TargetConditionType "InfraReady", FallbackCondition "True" "Provisioned" "infra is up"]).fallbackStatus ≠ "" ∧
    newMirrorCondition ⟨"Machine", "m1"⟩ none "Ready"
        [TargetConditionType "InfraReady", FallbackCondition "True" "Provisioned" "infra is up"] =
      { type := "InfraReady"
        status := "True"
        reason := "Provisioned"
        message := "infra is up"
        lastTransitionTime := 0
        observedGeneration := 0 } :=
  ⟨by decide, newMirrorCondition_fallback_spec _ _ _ (by decide)⟩

/-- C3: when the source condition is absent and the effective fallbackStatus is
empty, the mirror has the effective target type, status Unknown, the
NotYetReported sentinel reason, and message
"Condition <sourceConditionType> not yet reported from <ownerLabel>", with
LastTransitionTime left at its zero value. -/
theorem newMirrorCondition_notYetReported_spec (obj : SourceObj) (t : String)
    (opts : List MirrorOption)
    (h : (MirrorOptions.ApplyOptions ⟨t, "", "", ""⟩ opts).fallbackStatus = "") :
    newMirrorCondition obj none t opts =
      { type := (MirrorOptions.ApplyOptions ⟨t, "", "", ""⟩ opts).targetConditionType
        status := ConditionUnknown
        reason := NotYetReportedReason
        message := "Condition " ++ t ++ " not yet reported from " ++ getConditionOwnerInfo obj
        lastTransitionTime := 0
        observedGeneration := 0 } := by
  unfold newMirrorCondition
  simp only []
  rw [if_neg (by simp [h])]

/-- Witness for C3, at the spec's scenario: absent condition, no options, source
type "Ready", object "Machine/m1". -/
theorem newMirrorCondition_notYetReported_spec_witness :
    (MirrorOptions.ApplyOptions ⟨"Ready", "", "", ""⟩ []).fallbackStatus = "" ∧
    newMirrorCondition ⟨"Machine", "m1"⟩ none "Ready" [] =
      { type := "Ready"
        status := "Unknown"
        reason := "NotYetReported"
        message := "Condition Ready not yet reported from Machine/m1"
        lastTransitionTime := 0
        observedGeneration := 0 } :=
  ⟨rfl, newMirrorCondition_notYetReported_spec _ _ _ rfl⟩

/-- C4: when decoding the source condition fails, the decode error is returned
unmodified and the target conditions are untouched; when decoding succeeds, no
error is returned and the mirror condition is written to the target via Set. -/
theorem setMirrorConditionFromUnstructured_spec :
    (∀ (src : UnstructuredObj) (tgt : List Condition) (t : String)
        (opts : List MirrorOption) (e : String),
      UnstructuredGet src t = .error e →
      SetMirrorConditionFromUnstructured src tgt t opts = (tgt, some e)) ∧
    (∀ (src : UnstructuredObj) (tgt : List Condition) (t : String)
        (opts : List MirrorOption) (c : Option Condition),
      UnstructuredGet src t = .ok c →
      SetMirrorConditionFromUnstructured src tgt t opts =
        (Set tgt (newMirrorCondition src.owner c t opts), none)) := by
  constructor
  · intro src tgt t opts e h
    unfold SetMirrorConditionFromUnstructured
    rw [h]
  · intro src tgt t opts c h
    unfold SetMirrorConditionFromUnstructured
    rw [h]

/-- Witness for C4: a dynamic object whose decode fails on "Ready" and succeeds
(absent) on anything else; the failing call leaves the target untouched and
returns the error, the succeeding call writes the mirror. -/
theorem setMirrorConditionFromUnstructured_spec_witness :
    SetMirrorConditionFromUnstructured
        ⟨⟨"Machine", "m1"⟩, fun ty => if ty = "Ready" then .error "decode failed" else .ok none⟩
        [] "Ready" [] = ([], some "decode failed") ∧
    SetMirrorConditionFromUnstructured
        ⟨⟨"Machine", "m1"⟩, fun ty => if ty = "Ready" then .error "decode failed" else .ok none⟩
        [] "Paused" [] =
      ([{ type := "Paused"
          status := "Unknown"
          reason := "NotYetReported"
          message := "Condition Paused not yet reported from Machine/m1"
          lastTransitionTime := 0
          observedGeneration := 0 }], none) :=
  ⟨setMirrorConditionFromUnstructured_spec.1
      ⟨⟨"Machine", "m1"⟩, fun ty => if ty = "Ready" then .error "decode failed" else .ok none⟩
      [] "Ready" [] "decode failed" rfl,
   (setMirrorConditionFromUnstructured_spec.2
      ⟨⟨"Machine", "m1"⟩, fun ty => if ty = "Ready" then .error "decode failed" else .ok none⟩
      [] "Paused" [] none rfl).trans rfl⟩

/-- C5: the effective targetConditionType defaults to sourceConditionType (no
options), in general equals the result of applying the directives to the
defaulted options, and a TargetConditionType directive applied last overrides
it; this holds in all three output cases since `condition` is arbitrary. -/
theorem targetConditionType_resolution_spec :
    (∀ (obj : SourceObj) (cond : Option Condition) (t : String),
      (newMirrorCondition obj cond t []).type = t) ∧
    (∀ (obj : SourceObj) (cond : Option Condition) (t : String) (opts : List MirrorOption),
      (newMirrorCondition obj cond t opts).type =
        (MirrorOptions.ApplyOptions ⟨t, "", "", ""⟩ opts).targetConditionType) ∧
    (∀ (obj : SourceObj) (cond : Option Condition) (t s : String) (opts : List MirrorOption),
      (newMirrorCondition obj cond t (opts ++ [TargetConditionType s])).type = s) := by
  refine ⟨?_, ?_, ?_⟩
  · intro obj cond t
    cases cond <;> rfl
  · intro obj cond t opts
    cases cond with
    | some c => rfl
    | none =>
        unfold newMirrorCondition
        dsimp only
        split <;> rfl
  · intro obj cond t s opts
    have htype : (MirrorOptions.ApplyOptions ⟨t, "", "", ""⟩
        (opts ++ [TargetConditionType s])).targetConditionType = s := by
      unfold MirrorOptions.ApplyOptions
      rw [List.foldl_append]
      rfl
    cases cond with
    | some c => simpa [newMirrorCondition, MirrorOptions.ApplyOptions] using htype
    | none =>
        unfold newMirrorCondition
        dsimp only
        split <;> simpa [MirrorOptions.ApplyOptions] using htype

/-- C6: ApplyOptions applies the directives in sequence order (it is a left
fold: identity on the empty sequence, head first on cons, last directive last on
append), so a later directive writing the same field overwrites an earlier one;
the returned value is the received options value with the directives applied. -/
theorem applyOptions_order_spec :
    (∀ o : MirrorOptions, o.ApplyOptions [] = o) ∧
    (∀ (o : MirrorOptions) (f : MirrorOption) (opts : List MirrorOption),
      o.ApplyOptions (f :: opts) = (f o).ApplyOptions opts) ∧
    (∀ (o : MirrorOptions) (opts : List MirrorOption) (f : MirrorOption),
      o.ApplyOptions (opts ++ [f]) = f (o.ApplyOptions opts)) ∧
    (∀ (o : MirrorOptions) (s₁ s₂ : String),
      (o.ApplyOptions [TargetConditionType s₁, TargetConditionType s₂]).targetConditionType = s₂) := by
  refine ⟨fun o => rfl, fun o f opts => rfl, ?_, fun o s₁ s₂ => rfl⟩
  intro o opts f
  unfold MirrorOptions.ApplyOptions
  rw [List.foldl_append]
  rfl

/-- C7: in all three output cases the mirror's ObservedGeneration is left at its
zero value; in particular a present source condition's ObservedGeneration is
never copied. -/
theorem observedGeneration_unset_spec (obj : SourceObj) (cond : Option Condition)
    (t : String) (opts : List MirrorOption) :
    (newMirrorCondition obj cond t opts).observedGeneration = 0 := by
  cases cond with
  | some c => rfl
  | none =>
      unfold newMirrorCondition
      dsimp only
      split <;> rfl

/-- C8: the mirror builder is deterministic: two calls whose inputs (source
object identity fields, optional condition, source condition type, directive
sequence) are equal produce field-for-field equal conditions; totality — exactly
one condition, no failure path — is expressed by its codomain `Condition`. -/
theorem newMirrorCondition_deterministic_spec
    (o₁ o₂ : SourceObj) (c₁ c₂ : Option Condition) (t₁ t₂ : String)
    (p₁ p₂ : List MirrorOption)
    (ho : o₁ = o₂) (hc : c₁ = c₂) (ht : t₁ = t₂) (hp : p₁ = p₂) :
    newMirrorCondition o₁ c₁ t₁ p₁ = newMirrorCondition o₂ c₂ t₂ p₂ := by
  subst ho; subst hc; subst ht; subst hp; rfl

/-- Witness for C8 at a concrete input (the spec's first scenario source). -/
theorem newMirrorCondition_deterministic_spec_witness :
    newMirrorCondition ⟨"Machine", "m1"⟩
        (some ⟨"Ready", "False", "WaitingForInfra", "infra not ready", 7, 3⟩) "Ready" [] =
      newMirrorCondition ⟨"Machine", "m1"⟩
        (some ⟨"Ready", "False", "WaitingForInfra", "infra not ready", 7, 3⟩) "Ready" [] :=
  newMirrorCondition_deterministic_spec _ _ _ _ _ _ _ _ rfl rfl rfl rfl

/-- C9: with the source condition absent, the fallback branch is taken exactly
when the effective fallbackStatus is non-empty: when it is empty the
NotYetReported placeholder is produced even if fallbackReason or fallbackMessage
were configured (they are silently ignored), and when it is non-empty the
fallback triple is produced. -/
theorem fallbackStatus_gates_spec (obj : SourceObj) (t : String)
    (opts : List MirrorOption) :
    ((MirrorOptions.ApplyOptions ⟨t, "", "", ""⟩ opts).fallbackStatus = "" →
      newMirrorCondition obj none t opts =
        { type := (MirrorOptions.ApplyOptions ⟨t, "", "", ""⟩ opts).targetConditionType
          status := ConditionUnknown
          reason := NotYetReportedReason
          message := "Condition " ++ t ++ " not yet reported from " ++ getConditionOwnerInfo obj
          lastTransitionTime := 0
          observedGeneration := 0 }) ∧
    ((MirrorOptions.ApplyOptions ⟨t, "", "", ""⟩ opts).fallbackStatus ≠ "" →
      newMirrorCondition obj none t opts =
        { type := (MirrorOptions.ApplyOptions ⟨t, "", "", ""⟩ opts).targetConditionType
          status := (MirrorOptions.ApplyOptions ⟨t, "", "", ""⟩ opts).fallbackStatus
          reason := (MirrorOptions.ApplyOptions ⟨t, "", "", ""⟩ opts).fallbackReason
          message := (MirrorOptions.ApplyOptions ⟨t, "", "", ""⟩ opts).fallbackMessage
          lastTransitionTime := 0
          observedGeneration := 0 }) := by
  constructor
  · intro h
    unfold newMirrorCondition
    dsimp only
    rw [if_neg (by simp [h])]
  · intro h
    unfold newMirrorCondition
    dsimp only
    rw [if_pos h]

/-- Witness for C9: a directive configuring a non-empty fallbackReason and
fallbackMessage with an empty fallbackStatus is ignored and the placeholder is
produced; with a non-empty fallbackStatus the fallback triple is produced. -/
theorem fallbackStatus_gates_spec_witness :
    newMirrorCondition ⟨"Machine", "m1"⟩ none "Ready"
        [FallbackCondition "" "ConfiguredReason" "configured message"] =
      { type := "Ready"
        status := "Unknown"
        reason := "NotYetReported"
        message := "Condition Ready not yet reported from Machine/m1"
        lastTransitionTime := 0
        observedGeneration := 0 } ∧
    newMirrorCondition ⟨"Machine", "m1"⟩ none "Ready"
        [FallbackCondition "True" "Provisioned" "infra is up"] =
      { type := "Ready"
        status := "True"
        reason := "Provisioned"
        message := "infra is up"
        lastTransitionTime := 0
        observedGeneration := 0 } :=
  ⟨((fallbackStatus_gates_spec ⟨"Machine", "m1"⟩ "Ready"
      [FallbackCondition "" "ConfiguredReason" "configured message"]).1 rfl).trans rfl,
   ((fallbackStatus_gates_spec ⟨"Machine", "m1"⟩ "Ready"
      [FallbackCondition "True" "Provisioned" "infra is up"]).2 (by decide)).trans rfl⟩

/-- C10: BoolToStatus maps true to the True status and false to the False
status, and never produces Unknown. -/
theorem boolToStatus_spec :
    BoolToStatus true = ConditionTrue ∧
    BoolToStatus false = ConditionFalse ∧
    ∀ b : Bool, BoolToStatus b ≠ ConditionUnknown := by
  refine ⟨rfl, rfl, ?_⟩
  intro b
  cases b <;> decide

end MirrorV1Beta2
